import Mathlib

/-
Verification of the loudness-normalization and assembly pipeline of the
Podcast-Maker repository (src/app.py) against its natural-language
specification.

Modelling conventions:
* Python floats are modelled as `Rat` (exact rational arithmetic); the
  pipeline only ever parses decimal literals, passes the value around
  unchanged and formats it back to a fixed number of decimals, so the
  rational model is adequate for every claim below.  Non-finite float
  literals ("inf", non-lowercase spellings of "nan" that survive the
  explicit check in the source) are modelled as parse failures.
* The filesystem is a list of existing paths, external processes are an
  oracle `run : List String → CmdResult` provided by the environment; a
  `CmdResult` also records which files the external process created, since
  the Python code itself never writes files (ffmpeg does).
* Exceptions are the `PyExc` inductive; `src/app.py` raises `RuntimeError`
  everywhere, while the Python standard library can additionally raise
  `json.JSONDecodeError` (from `json.loads`) and `ValueError` (from
  `float`); `PyExc.typeName` is Python's `type(e).__name__`.
-/

namespace PodcastApp

/-- Path join, POSIX model of `os.path.join` for a folder and a relative name. -/
def pjoin (a b : String) : String := a ++ "/" ++ b

/-- Python exceptions that the embedded code can raise. -/
inductive PyExc where
  | runtimeError (msg : String)
  | jsonDecodeError (msg : String)
  | valueError (msg : String)
deriving DecidableEq, Repr

/-- Python's `type(e).__name__` for the exceptions of `PyExc`. -/
def PyExc.typeName : PyExc → String
  | .runtimeError _ => "RuntimeError"
  | .jsonDecodeError _ => "JSONDecodeError"
  | .valueError _ => "ValueError"

/-- The message carried by an exception (`str(e)`). -/
def PyExc.message : PyExc → String
  | .runtimeError m => m
  | .jsonDecodeError m => m
  | .valueError m => m

/-! ### Fixed-point formatting (Python `f"{x:.Nf}"` on the rational model) -/

/-- Round `num / den` (with `den > 0`) to the nearest integer, ties to
even — the rounding used by Python's fixed-point float formatting. -/
def roundHalfEvenInt (num den : Int) : Int :=
  let f := Int.fdiv num den
  let r := num - f * den
  if 2 * r < den then f
  else if den < 2 * r then f + 1
  else if f % 2 = 0 then f else f + 1

/-- The value `q * 10 ^ prec` rounded to the nearest integer, ties to even: the
value of `q` rounded to `prec` decimal places, times `10 ^ prec`. -/
def ratScaledRound (prec : Nat) (q : Rat) : Int :=
  roundHalfEvenInt (q.num * ((10 ^ prec : Nat) : Int)) (q.den : Int)

/-- Left-pad a digit string with zeros to the given length. -/
def zeroPad (s : String) (len : Nat) : String :=
  if s.length < len then String.mk (List.replicate (len - s.length) '0') ++ s else s

/-- Python `f"{q:.prec f}"`: fixed-point rendering with `prec` decimals,
round-half-to-even, keeping the sign of a negative value even when the
rounded magnitude is zero (Python prints `-0.00` for `-0.001`). -/
def fmtFixed (prec : Nat) (q : Rat) : String :=
  let scaled : Int := ratScaledRound prec q
  let sign : String := if q.num < 0 then "-" else ""
  let n : Nat := scaled.natAbs
  let ip : Nat := n / 10 ^ prec
  let fp : Nat := n % 10 ^ prec
  if prec = 0 then sign ++ toString ip
  else sign ++ toString ip ++ "." ++ zeroPad (toString fp) prec

/-! ### The diagnostic-stream scan (`re.findall(r"\x7b[\s\S]*?\x7d", err)`) -/

/-- The opening-brace character. -/
def lbrace : Char := Char.ofNat 123

/-- The closing-brace character. -/
def rbrace : Char := Char.ofNat 125

/-- Split a character list at the first closing brace: returns the
characters before it and the characters after it, or `none` when the list
has no closing brace.  This is the lazy `[\s\S]*?` part of the pattern. -/
def splitAtClose : List Char → Option (List Char × List Char)
  | [] => none
  | c :: rest =>
    if c = rbrace then some ([], rest)
    else match splitAtClose rest with
      | some (a, b) => some (c :: a, b)
      | none => none

/-- Fuelled scan behind `findallBraces`: every step strictly shortens the
remaining character list (by one character, or past the matched block, see
`splitAtClose_length`), so fuel equal to the input length never runs out. -/
def findallBracesAux : Nat → List Char → List (List Char)
  | 0, _ => []
  | Nat.succ fuel, cs =>
    match cs with
    | [] => []
    | c :: rest =>
      if c = lbrace then
        match splitAtClose rest with
        | some (inner, after) => (lbrace :: inner ++ [rbrace]) :: findallBracesAux fuel after
        | none => []
      else findallBracesAux fuel rest

/-- Model of `re.findall(r"\x7b[\s\S]*?\x7d", s)` on the character list:
leftmost, non-overlapping, lazy matches from an opening to the nearest
closing brace. -/
def findallBraces (cs : List Char) : List (List Char) :=
  findallBracesAux cs.length cs

/-- String-level wrapper of the brace scan. -/
def findallJsonBlocks (s : String) : List String :=
  (findallBraces s.data).map (fun cs => String.mk cs)

/-! ### JSON values and a model of `json.loads`

`json.loads` is only ever applied to a brace-delimited block found by the
scan above, so the top level is an object (or a decode error).  Values are
modelled exactly: strings (with the standard escapes), numbers (as exact
rationals), booleans, null, arrays and nested objects. -/

/-- A parsed JSON value (Python's `json.loads` result). -/
inductive JVal where
  | jnull
  | jbool (b : Bool)
  | jnum (q : Rat)
  | jstr (s : String)
  | jarr (xs : List JVal)
  | jobj (fields : List (String × JVal))

/-- Skip JSON whitespace (space, tab, newline, carriage return). -/
def skipWs : List Char → List Char
  | [] => []
  | c :: rest =>
    if c = ' ' ∨ c = '\n' ∨ c = '\t' ∨ c = '\r' then skipWs rest else c :: rest

/-- Value of a hexadecimal digit. -/
def hexVal (c : Char) : Option Nat :=
  if '0' ≤ c ∧ c ≤ '9' then some (c.toNat - 48)
  else if 'a' ≤ c ∧ c ≤ 'f' then some (c.toNat - 87)
  else if 'A' ≤ c ∧ c ≤ 'F' then some (c.toNat - 70)
  else none

/-- Parse the body of a JSON string (the opening quote already consumed):
returns the decoded string and the characters after the closing quote.
Raw control characters are rejected, as in strict `json.loads`. -/
def parseJString : List Char → Option (String × List Char)
  | [] => none
  | c :: rest =>
    if c = '"' then some ("", rest)
    else if c = '\\' then
      match rest with
      | [] => none
      | e :: rest2 =>
        if e = 'u' then
          match rest2 with
          | h1 :: h2 :: h3 :: h4 :: rest3 =>
            match hexVal h1, hexVal h2, hexVal h3, hexVal h4 with
            | some a, some b, some cv, some d =>
              match parseJString rest3 with
              | some (s, r) =>
                some (String.mk (Char.ofNat (((a * 16 + b) * 16 + cv) * 16 + d) :: s.data), r)
              | none => none
            | _, _, _, _ => none
          | _ => none
        else
          let esc : Option Char :=
            if e = '"' then some '"'
            else if e = '\\' then some '\\'
            else if e = '/' then some '/'
            else if e = 'b' then some (Char.ofNat 8)
            else if e = 'f' then some (Char.ofNat 12)
            else if e = 'n' then some '\n'
            else if e = 'r' then some '\r'
            else if e = 't' then some '\t'
            else none
          match esc with
          | some ch =>
            match parseJString rest2 with
            | some (s, r) => some (String.mk (ch :: s.data), r)
            | none => none
          | none => none
    else if c.toNat < 32 then none
    else
      match parseJString rest with
      | some (s, r) => some (String.mk (c :: s.data), r)
      | none => none

/-- Numeric value of a digit list (most significant first). -/
def digitsToNat (ds : List Char) : Nat :=
  ds.foldl (fun acc c => acc * 10 + (c.toNat - 48)) 0

/-- Split a character list into its leading run of decimal digits and the rest. -/
def takeDigits : List Char → List Char × List Char
  | [] => ([], [])
  | c :: rest =>
    if c.isDigit then
      let (d, r) := takeDigits rest
      (c :: d, r)
    else ([], c :: rest)

/-- The exact rational value of a decimal literal
`[-] ints [. fracs] [e exp]`, built with core integer arithmetic only. -/
def decimalRat (neg : Bool) (ints fracs : List Char) (e : Int) : Rat :=
  let base : Int := ((digitsToNat ints * 10 ^ fracs.length + digitsToNat fracs : Nat) : Int)
  let signed : Int := if neg then -base else base
  if 0 ≤ e then mkRat (signed * ((10 ^ e.toNat : Nat) : Int)) (10 ^ fracs.length)
  else mkRat signed (10 ^ fracs.length * 10 ^ (-e).toNat)

/-- Parse a JSON number (grammar: `-? int frac? exp?`, no leading zeros),
returning its exact rational value and the remaining characters. -/
def parseNumber (cs : List Char) : Option (Rat × List Char) :=
  let (neg, cs1) : Bool × List Char :=
    match cs with
    | c :: rest => if c = '-' then (true, rest) else (false, cs)
    | [] => (false, [])
  let (ints, cs2) := takeDigits cs1
  if ints = [] then none
  else if 1 < ints.length ∧ ints.headD '0' = '0' then none
  else
    let (fracPart, cs3) : Option (List Char) × List Char :=
      match cs2 with
      | c :: rest =>
        if c = '.' then
          let (fd, r) := takeDigits rest
          (some fd, r)
        else (none, cs2)
      | [] => (none, [])
    match fracPart with
    | some [] => none
    | _ =>
      let (expPart, cs4) : Option Int × List Char :=
        match cs3 with
        | c :: rest =>
          if c = 'e' ∨ c = 'E' then
            match rest with
            | s :: rest2 =>
              if s = '-' then
                let (ed, r) := takeDigits rest2
                (if ed = [] then none else some (-(digitsToNat ed : Int)), r)
              else if s = '+' then
                let (ed, r) := takeDigits rest2
                (if ed = [] then none else some (digitsToNat ed : Int), r)
              else
                let (ed, r) := takeDigits rest
                (if ed = [] then none else some (digitsToNat ed : Int), r)
            | [] => (none, cs3)
          else (none, cs3)
        | [] => (none, [])
      match cs3, expPart with
      | _ :: _, none =>
        -- an `e`/`E` was present but had no digits, or no exponent at all
        if cs3.headD ' ' = 'e' ∨ cs3.headD ' ' = 'E' then none
        else some (decimalRat neg ints (fracPart.getD []) 0, cs3)
      | [], none => some (decimalRat neg ints (fracPart.getD []) 0, cs3)
      | _, some e => some (decimalRat neg ints (fracPart.getD []) e, cs4)

/-- Check that a literal keyword follows, consuming it. -/
def expectLit (lit : String) (cs : List Char) (v : JVal) : Option (JVal × List Char) :=
  if lit.data.isPrefixOf cs then some (v, cs.drop lit.data.length) else none

mutual

/-- Parse one JSON value; `fuel` bounds the recursion depth and is chosen
large enough for the input length by `json_loads_obj`. -/
def parseValue : Nat → List Char → Option (JVal × List Char)
  | 0, _ => none
  | Nat.succ fuel, cs =>
    match skipWs cs with
    | [] => none
    | c :: rest =>
      if c = '"' then
        match parseJString rest with
        | some (s, r) => some (.jstr s, r)
        | none => none
      else if c = lbrace then parseObjBody fuel rest
      else if c = '[' then parseArrBody fuel rest
      else if c = 't' then expectLit "rue" rest (.jbool true)
      else if c = 'f' then expectLit "alse" rest (.jbool false)
      else if c = 'n' then expectLit "ull" rest .jnull
      else if c = '-' ∨ c.isDigit then
        match parseNumber (c :: rest) with
        | some (q, r) => some (.jnum q, r)
        | none => none
      else none

/-- Parse an object body (the opening brace already consumed). -/
def parseObjBody : Nat → List Char → Option (JVal × List Char)
  | 0, _ => none
  | Nat.succ fuel, cs =>
    match skipWs cs with
    | [] => none
    | c :: rest =>
      if c = rbrace then some (.jobj [], rest)
      else if c = '"' then
        match parseJString rest with
        | none => none
        | some (k, r1) =>
          match skipWs r1 with
          | ':' :: r2 =>
            match parseValue fuel r2 with
            | none => none
            | some (v, r3) =>
              match parseObjMore fuel r3 with
              | some (fields, r4) => some (.jobj ((k, v) :: fields), r4)
              | none => none
          | _ => none
      else none

/-- Parse the members of an object after the first one. -/
def parseObjMore : Nat → List Char → Option (List (String × JVal) × List Char)
  | 0, _ => none
  | Nat.succ fuel, cs =>
    match skipWs cs with
    | [] => none
    | c :: rest =>
      if c = rbrace then some ([], rest)
      else if c = ',' then
        match skipWs rest with
        | c2 :: r1 =>
          if c2 = '"' then
            match parseJString r1 with
            | some (k, r2) =>
              match skipWs r2 with
              | ':' :: r3 =>
                match parseValue fuel r3 with
                | some (v, r4) =>
                  match parseObjMore fuel r4 with
                  | some (fields, r5) => some ((k, v) :: fields, r5)
                  | none => none
                | none => none
              | _ => none
            | none => none
          else none
        | [] => none
      else none

/-- Parse an array body (the opening bracket already consumed). -/
def parseArrBody : Nat → List Char → Option (JVal × List Char)
  | 0, _ => none
  | Nat.succ fuel, cs =>
    match skipWs cs with
    | [] => none
    | c :: rest =>
      if c = ']' then some (.jarr [], rest)
      else
        match parseValue fuel (c :: rest) with
        | some (v, r1) =>
          match parseArrMore fuel r1 with
          | some (vs, r2) => some (.jarr (v :: vs), r2)
          | none => none
        | none => none

/-- Parse the elements of an array after the first one. -/
def parseArrMore : Nat → List Char → Option (List JVal × List Char)
  | 0, _ => none
  | Nat.succ fuel, cs =>
    match skipWs cs with
    | [] => none
    | c :: rest =>
      if c = ']' then some ([], rest)
      else if c = ',' then
        match parseValue fuel rest with
        | some (v, r1) =>
          match parseArrMore fuel r1 with
          | some (vs, r2) => some ((v :: vs), r2)
          | none => none
        | none => none
      else none

end

/-- Model of `json.loads` as used by the source: the argument is a
brace-delimited block, so a successful parse yields the field list of a
top-level object (duplicate keys kept in order).  `none` models
`json.JSONDecodeError`. -/
def json_loads_obj (s : String) : Option (List (String × JVal)) :=
  let cs := s.data
  match parseValue (2 * cs.length + 8) cs with
  | some (.jobj fields, rest) => if skipWs rest = [] then some fields else none
  | _ => none

/-- Python `dict(...).get(key)` on the parsed field list: duplicate keys in
the JSON text overwrite earlier ones, so the last occurrence wins. -/
def jGet (fields : List (String × JVal)) (key : String) : Option JVal :=
  ((fields.filter (fun kv => kv.1 == key)).map (fun kv => kv.2)).getLast?

/-- Python `str(...)` of a JSON-decoded value, as far as the source needs
it: the result is only ever compared (lowercased) with `"nan"`.  For
containers the exact rendering is irrelevant to that comparison, so a
bracketed placeholder stands in for Python's full rendering. -/
def pyStr : JVal → String
  | .jnull => "None"
  | .jbool b => if b then "True" else "False"
  | .jnum q => toString q.num ++ (if q.den = 1 then ".0" else "/" ++ toString q.den)
  | .jstr s => s
  | .jarr _ => "[...]"
  | .jobj _ => "\x7b...\x7d"

/-- Python `float(s)` on a string, restricted to finite decimal literals:
optional surrounding whitespace, optional sign, digits with an optional
fraction and exponent.  Non-finite literals ("inf", residual spellings of
"nan") are modelled as failures (see the file header). -/
def pyFloatFinite? (s : String) : Option Rat :=
  let cs := skipWs s.data
  let (neg, cs1) : Bool × List Char :=
    match cs with
    | c :: rest => if c = '-' then (true, rest) else if c = '+' then (false, rest) else (false, cs)
    | [] => (false, [])
  let (ints, cs2) := takeDigits cs1
  let (fracPart, cs3) : Option (List Char) × List Char :=
    match cs2 with
    | c :: rest =>
      if c = '.' then
        let (fd, r) := takeDigits rest
        (some fd, r)
      else (none, cs2)
    | [] => (none, [])
  if ints = [] ∧ (fracPart.getD []) = [] then none
  else
    let (expPart, cs4) : Option Int × List Char :=
      match cs3 with
      | c :: rest =>
        if c = 'e' ∨ c = 'E' then
          match rest with
          | s :: rest2 =>
            if s = '-' then
              let (ed, r) := takeDigits rest2
              (if ed = [] then none else some (-(digitsToNat ed : Int)), r)
            else if s = '+' then
              let (ed, r) := takeDigits rest2
              (if ed = [] then none else some (digitsToNat ed : Int), r)
            else
              let (ed, r) := takeDigits rest
              (if ed = [] then none else some (digitsToNat ed : Int), r)
          | [] => (none, cs3)
        else (none, cs3)
      | [] => (none, [])
    let hadExpMarker : Bool := cs3.headD ' ' = 'e' ∨ cs3.headD ' ' = 'E'
    if hadExpMarker ∧ expPart.isNone then none
    else if ¬ (skipWs cs4 = [] ∧ (hadExpMarker ∨ skipWs cs3 = [])) then none
    else some (decimalRat neg ints (fracPart.getD []) (expPart.getD 0))

/-- Python `float(x)` applied to a JSON-decoded value, as in the source's
`float(input_i)`: numbers pass through, strings are parsed, booleans become
0 or 1; `None` and containers fail (`TypeError`, merged here with the
string-parse failure). -/
def pyFloatOfJVal : JVal → Option Rat
  | .jnum q => some q
  | .jstr s => pyFloatFinite? s
  | .jbool b => some (if b then mkRat 1 1 else mkRat 0 1)
  | .jnull => none
  | .jarr _ => none
  | .jobj _ => none

/-- Python `str.lower()` (ASCII case folding, which covers every spelling
of "nan" the source compares against). -/
def strToLower (s : String) : String := String.mk (s.data.map Char.toLower)

/-! ### The external-process environment (`run_cmd` and the filesystem) -/

/-- Result of one external process run (`run_cmd` in the source returns the
first three components); `creates` records the files the external tool
wrote, a side effect of the process and not of the Python code. -/
structure CmdResult where
  rc : Int
  out : String
  err : String
  creates : List String

/-- The ambient environment of one pipeline run: the platform flag
(`os.name == "nt"`), the PyInstaller base directory (`sys._MEIPASS` or the
current directory), `shutil.which`, the initially existing files, the
external-process oracle, the fresh temporary-directory path handed out by
`tempfile.TemporaryDirectory`, and whether a status callback was passed. -/
structure Env where
  osIsNT : Bool
  meipassBase : String
  which : String → Option String
  fs0 : List String
  run : List String → CmdResult
  tmpdirName : String
  hasCallback : Bool

/-- Embeds `_resource_path` from the source. -/
def resource_path (env : Env) (relative : String) : String :=
  pjoin env.meipassBase relative

/-- Embeds `_which_or_bundled` from the source: bundled location first, then the
system search path. -/
def which_or_bundled (env : Env) (name : String) : Option String :=
  let candidate := resource_path env (pjoin "bin" name)
  if env.fs0.contains candidate then some candidate
  else env.which name

/-- The platform-dependent binary name looked up by `process_episode`. -/
def ffmpegBinName (env : Env) : String :=
  if env.osIsNT then "ffmpeg.exe" else "ffmpeg"

/-! ### The three ffmpeg operations -/

/-- The analysis command built by `measure_integrated_loudness`. -/
def measure_cmd (ffmpeg_path infile : String) : List String :=
  [ffmpeg_path, "-hide_banner", "-nostdin",
   "-i", infile,
   "-af", "loudnorm=I=-16:TP=-1.5:LRA=11:print_format=json",
   "-f", "null", "-"]

/-- Embeds `measure_integrated_loudness` from the source: run the analysis, then
parse the last brace-delimited block of the diagnostic stream. -/
def measure_integrated_loudness (env : Env) (ffmpeg_path infile : String) :
    Except PyExc Rat :=
  let r := env.run (measure_cmd ffmpeg_path infile)
  if r.rc ≠ 0 then
    .error (.runtimeError ("ffmpeg loudness analysis failed for " ++ infile ++ ":\n" ++ r.err))
  else
    match (findallJsonBlocks r.err).getLast? with
    | none =>
      .error (.runtimeError ("Could not parse loudnorm JSON for " ++ infile ++
        ".\nffmpeg stderr:\n" ++ r.err))
    | some blk =>
      match json_loads_obj blk with
      | none => .error (.jsonDecodeError blk)
      | some fields =>
        match jGet fields "input_i" with
        | none => .error (.runtimeError ("Invalid loudness (input_i) for " ++ infile ++ "."))
        | some .jnull => .error (.runtimeError ("Invalid loudness (input_i) for " ++ infile ++ "."))
        | some v =>
          if strToLower (pyStr v) = "nan" then
            .error (.runtimeError ("Invalid loudness (input_i) for " ++ infile ++ "."))
          else
            match pyFloatOfJVal v with
            | some q => .ok q
            | none => .error (.valueError (pyStr v))

/-- Default true-peak ceiling of `normalize_to_target_i` (-1.5 dBTP). -/
def DEFAULT_TRUE_PEAK : Rat := mkRat (-3) 2

/-- Default loudness-range target of `normalize_to_target_i` (11 LU). -/
def DEFAULT_LRA : Rat := mkRat 11 1

/-- The `loudnorm` filter string built by `normalize_to_target_i`:
`f"loudnorm=I=\x7btarget_i:.2f\x7d:TP=\x7btrue_peak:.1f\x7d:LRA=\x7blra:.0f\x7d"`. -/
def loudnorm_af (target_i true_peak lra : Rat) : String :=
  "loudnorm=I=" ++ fmtFixed 2 target_i ++ ":TP=" ++ fmtFixed 1 true_peak ++
    ":LRA=" ++ fmtFixed 0 lra

/-- The command built by `normalize_to_target_i`. -/
def normalize_cmd (ffmpeg_path infile outfile_wav : String) (target_i : Rat)
    (true_peak : Rat) (lra : Rat) (sample_rate : Nat) (channels : Nat) : List String :=
  [ffmpeg_path, "-hide_banner", "-nostdin", "-y",
   "-i", infile,
   "-vn",
   "-af", loudnorm_af target_i true_peak lra,
   "-ar", toString sample_rate,
   "-ac", toString channels,
   outfile_wav]

/-- Embeds `normalize_to_target_i` from the source (defaults are passed explicitly
by the orchestrator below, as the source call sites rely on them). -/
def normalize_to_target_i (env : Env) (ffmpeg_path infile outfile_wav : String)
    (target_i : Rat) (true_peak : Rat) (lra : Rat)
    (sample_rate : Nat) (channels : Nat) : Except PyExc Unit :=
  let r := env.run (normalize_cmd ffmpeg_path infile outfile_wav target_i true_peak lra
    sample_rate channels)
  if r.rc ≠ 0 then
    .error (.runtimeError ("ffmpeg normalize failed for " ++ infile ++ ":\n" ++ r.err))
  else .ok ()

/-- The filter graph string built by `concatenate_audio`. -/
def concat_filter (n : Nat) : String :=
  String.join ((List.range n).map (fun i => "[" ++ toString i ++ ":a]")) ++
    "concat=n=" ++ toString n ++ ":v=0:a=1[out]"

/-- The command built by `concatenate_audio`. -/
def concatenate_cmd (ffmpeg_path : String) (input_files : List String)
    (output_path : String) (mp3_quality : Nat) : List String :=
  ([ffmpeg_path, "-hide_banner", "-nostdin", "-y"] ++
    input_files.flatMap (fun f => ["-i", f])) ++
  ["-filter_complex", concat_filter input_files.length,
   "-map", "[out]",
   "-c:a", "libmp3lame",
   "-q:a", toString mp3_quality,
   output_path]

/-- Embeds `concatenate_audio` from the source. -/
def concatenate_audio (env : Env) (ffmpeg_path : String) (input_files : List String)
    (output_path : String) (mp3_quality : Nat) : Except PyExc Unit :=
  let r := env.run (concatenate_cmd ffmpeg_path input_files output_path mp3_quality)
  if r.rc ≠ 0 then
    .error (.runtimeError ("ffmpeg concatenation failed:\n" ++ r.err))
  else .ok ()

/-! ### The orchestrator (`process_episode`) -/

/-- Observable events of one pipeline run: status-callback messages and the
calls into the three ffmpeg operations with their actual arguments. -/
inductive Event where
  | statusMsg (msg : String)
  | measureCall (infile : String)
  | normalizeCall (infile : String) (outfile : String) (target : Rat)
  | concatCall (inputs : List String) (output : String)
deriving DecidableEq

/-- Holds exactly on analyzer invocations. -/
def isMeasureEv : Event → Bool
  | .measureCall _ => true
  | _ => false

/-- Holds exactly on normalizer invocations. -/
def isNormalizeEv : Event → Bool
  | .normalizeCall _ _ _ => true
  | _ => false

/-- Holds exactly on concatenator invocations. -/
def isConcatEv : Event → Bool
  | .concatCall _ _ => true
  | _ => false

/-- Mutable run state: the existing files and the event trace so far. -/
structure St where
  fs : List String
  trace : List Event
deriving DecidableEq

/-- Decidable equality of run results, for evaluating concrete runs. -/
instance exceptDecEq {e a : Type} [DecidableEq e] [DecidableEq a] : DecidableEq (Except e a)
  | .error x, .error y =>
    if h : x = y then .isTrue (by rw [h]) else .isFalse (by simp [h])
  | .error _, .ok _ => .isFalse (by simp)
  | .ok _, .error _ => .isFalse (by simp)
  | .ok x, .ok y =>
    if h : x = y then .isTrue (by rw [h]) else .isFalse (by simp [h])

/-- Append one event to the trace. -/
def pushEvent (st : St) (e : Event) : St :=
  { st with trace := st.trace ++ [e] }

/-- Embeds `if status_callback: status_callback(msg)` from the source. -/
def pushStatus (env : Env) (st : St) (msg : String) : St :=
  if env.hasCallback then pushEvent st (.statusMsg msg) else st

/-- Record the files created by one external process run. -/
def applyCreates (env : Env) (cmd : List String) (st : St) : St :=
  { st with fs := st.fs ++ (env.run cmd).creates }

/-- A path inside the scoped workspace (the directory itself or anything
under it). -/
def isWorkspacePath (td p : String) : Bool :=
  p == td || (td ++ "/").data.isPrefixOf p.data

/-- Deletion of the temporary directory when the `with` block exits:
removes the directory and every file under it. -/
def cleanupTd (td : String) (st : St) : St :=
  { st with fs := st.fs.filter (fun p => !(isWorkspacePath td p)) }

/-- The role-to-path mapping built by `process_episode` (the `files` dict,
in insertion order); the `unique_files` dict of the source lists the same
six entries again. -/
def roleFiles (episode_folder : String) : List (String × String) :=
  [("intro", pjoin episode_folder "intro.mp3"),
   ("vorab", pjoin episode_folder "vorab.mp3"),
   ("kapitel", pjoin episode_folder "kapitel.mp3"),
   ("outro", pjoin episode_folder "outro.mp3"),
   ("jingle_vorne", pjoin episode_folder "jingle_vorne.mp3"),
   ("jingle_hinten", pjoin episode_folder "jingle_hinten.mp3")]

/-- Embeds `CONCAT_ORDER` from the source. -/
def CONCAT_ORDER : List String :=
  ["jingle_vorne", "intro", "jingle_hinten", "vorab", "kapitel",
   "jingle_vorne", "outro", "jingle_hinten"]

/-- The validation loop of `process_episode` (lines 150-154): every role
whose path is falsy or does not exist, as `"name.mp3"`, in role order. -/
def missingRoles (fs : List String) (episode_folder : String) : List String :=
  ((roleFiles episode_folder).filter
    (fun np => np.2 == "" || !(fs.contains np.2))).map (fun np => np.1 ++ ".mp3")

/-- The `MissingFilesError` message (`"Fehlende Dateien:..."`). -/
def missingMsg (missing : List String) : String :=
  "Fehlende Dateien:\n" ++ String.intercalate "\n" (missing.map (fun m => "  - " ++ m))

/-- The `ToolNotFoundError` message of the source. -/
def toolNotFoundMsg : String :=
  "ffmpeg nicht gefunden.\nInstalliere ffmpeg oder bundle es mit der .exe."

/-- The normalization fan-out loop of `process_episode` (lines 177-182):
status message, normalize into the workspace, extend the `normalized`
dict; stops at the first failing normalization (the raised exception). -/
def normalizeAll (env : Env) (ffmpeg td : String) (target : Rat) :
    List (String × String) → St → Except PyExc (List (String × String)) × St
  | [], st => (.ok [], st)
  | (name, path) :: rest, st =>
    let st1 := pushStatus env st ("Normalisiere " ++ name ++ "…")
    let outwav := pjoin td (name ++ "_norm.wav")
    let st2 := pushEvent st1 (.normalizeCall path outwav target)
    let st3 := applyCreates env
      (normalize_cmd ffmpeg path outwav target DEFAULT_TRUE_PEAK DEFAULT_LRA 48000 2) st2
    match normalize_to_target_i env ffmpeg path outwav target DEFAULT_TRUE_PEAK DEFAULT_LRA
        48000 2 with
    | .error e => (.error e, st3)
    | .ok _ =>
      match normalizeAll env ffmpeg td target rest st3 with
      | (.ok m, st4) => (.ok ((name, outwav) :: m), st4)
      | (.error e, st4) => (.error e, st4)

/-- The assembly and concatenation steps of `process_episode` (lines
184-195), still inside the `with` block: `normalized` lookup along
`CONCAT_ORDER`, output path, concatenate, return. -/
def pe_stage_concat (env : Env) (ffmpeg td : String)
    (normalized : List (String × String)) (chapter_number : Nat)
    (output_folder : String) (st : St) : Except PyExc String × St :=
  let concat_files := CONCAT_ORDER.map (fun name => ((List.lookup name normalized).getD ""))
  let output_path := pjoin output_folder ("Kapitel " ++ toString chapter_number ++ ".mp3")
  let st1 := pushStatus env st "Füge Audio zusammen…"
  let st2 := pushEvent st1 (.concatCall concat_files output_path)
  let st3 := applyCreates env (concatenate_cmd ffmpeg concat_files output_path 2) st2
  match concatenate_audio env ffmpeg concat_files output_path 2 with
  | .error e => (.error e, cleanupTd td st3)
  | .ok _ => (.ok output_path, cleanupTd td st3)

/-- The scoped-workspace block of `process_episode` (lines 165-195): the
`with tempfile.TemporaryDirectory(...)` context manager creates a fresh
directory and deletes it (and everything under it) on every exit path. -/
def pe_stage_workspace (env : Env) (ffmpeg : String) (episode_folder : String)
    (chapter_number : Nat) (output_folder : String) (baseline_i : Rat) (st : St) :
    Except PyExc String × St :=
  let td := env.tmpdirName
  let st1 : St := { st with fs := st.fs ++ [td] }
  match normalizeAll env ffmpeg td baseline_i (roleFiles episode_folder) st1 with
  | (.error e, st2) => (.error e, cleanupTd td st2)
  | (.ok normalized, st2) =>
    pe_stage_concat env ffmpeg td normalized chapter_number output_folder st2

/-- The baseline-measurement step of `process_episode` (lines 159-163) and
everything after it. -/
def pe_stage_measure (env : Env) (ffmpeg : String) (episode_folder : String)
    (chapter_number : Nat) (output_folder : String) (st : St) :
    Except PyExc String × St :=
  let st1 := pushStatus env st "Messe Baseline-Lautstärke (jingle_vorne)…"
  let jp := pjoin episode_folder "jingle_vorne.mp3"
  let st2 := pushEvent st1 (.measureCall jp)
  let st3 := applyCreates env (measure_cmd ffmpeg jp) st2
  match measure_integrated_loudness env ffmpeg jp with
  | .error e => (.error e, st3)
  | .ok baseline_i =>
    pe_stage_workspace env ffmpeg episode_folder chapter_number output_folder baseline_i st3

/-- Embeds `process_episode` from the source: resolve ffmpeg, validate the six
clip paths, measure the baseline, normalize, concatenate.  The result is
the returned output path or the raised exception, together with the final
run state (existing files and event trace). -/
def process_episode (env : Env) (episode_folder : String) (chapter_number : Nat)
    (output_folder : String) : Except PyExc String × St :=
  let st0 : St := { fs := env.fs0, trace := [] }
  match which_or_bundled env (ffmpegBinName env) with
  | none => (.error (.runtimeError toolNotFoundMsg), st0)
  | some ffmpeg =>
    let missing := missingRoles env.fs0 episode_folder
    if missing = [] then
      pe_stage_measure env ffmpeg episode_folder chapter_number output_folder st0
    else
      (.error (.runtimeError (missingMsg missing)), st0)

/-! ### Derived artifacts of a run, used to state the lemmas below -/

/-- The normalized intermediate file of a role. -/
def mkNorm (td : String) (np : String × String) : String × String :=
  (np.1, pjoin td (np.1 ++ "_norm.wav"))

/-- The events the fan-out loop appends for a role list. -/
def normEvents (env : Env) (td : String) (b : Rat)
    (roles : List (String × String)) : List Event :=
  roles.flatMap (fun np =>
    (if env.hasCallback then [Event.statusMsg ("Normalisiere " ++ np.1 ++ "…")] else []) ++
    [Event.normalizeCall np.2 (pjoin td (np.1 ++ "_norm.wav")) b])

/-- The files created by the external runs of the fan-out loop. -/
def normCreates (env : Env) (ffmpeg td : String) (b : Rat)
    (roles : List (String × String)) : List String :=
  roles.flatMap (fun np =>
    (env.run (normalize_cmd ffmpeg np.2 (pjoin td (np.1 ++ "_norm.wav")) b
      DEFAULT_TRUE_PEAK DEFAULT_LRA 48000 2)).creates)

/-- The eight intermediate files handed to the concatenator, in assembly
order (roles 1 and 6 are the normalized lead jingle, roles 3 and 8 the
normalized trail jingle). -/
def concatList (td : String) : List String :=
  [pjoin td "jingle_vorne_norm.wav", pjoin td "intro_norm.wav",
   pjoin td "jingle_hinten_norm.wav", pjoin td "vorab_norm.wav",
   pjoin td "kapitel_norm.wav", pjoin td "jingle_vorne_norm.wav",
   pjoin td "outro_norm.wav", pjoin td "jingle_hinten_norm.wav"]

/-- The output path `<outputFolder>/Kapitel <N>.mp3`. -/
def outPathOf (output_folder : String) (chapter_number : Nat) : String :=
  pjoin output_folder ("Kapitel " ++ toString chapter_number ++ ".mp3")

/-! ### Concrete environments used by witnesses and counterexamples -/

/-- A diagnostic stream with two JSON blocks; the later one carries the
real measurement. -/
def goodStream : String :=
  "pre \x7b\"input_i\" : \"-99.00\"\x7d mid \x7b\"input_i\" : \"-23.50\"\x7d"

/-- The six expected clip paths of the episode folder `"ep"`. -/
def epFiles : List String :=
  ["ep/intro.mp3", "ep/vorab.mp3", "ep/kapitel.mp3", "ep/outro.mp3",
   "ep/jingle_vorne.mp3", "ep/jingle_hinten.mp3"]

/-- A fully healthy environment: every run succeeds, every run creates the
file named by the last command argument, the analyzer prints `goodStream`. -/
def envOk : Env :=
  { osIsNT := false, meipassBase := "/base", which := fun _ => some "/usr/bin/ffmpeg",
    fs0 := epFiles,
    run := fun cmd => { rc := 0, out := "", err := goodStream, creates := [cmd.getLastD ""] },
    tmpdirName := "/tmp/podcast_w", hasCallback := true }

/-- No resolvable ffmpeg and an empty filesystem (all clips missing too). -/
def envNoTool : Env :=
  { osIsNT := false, meipassBase := "/base", which := fun _ => none,
    fs0 := [],
    run := fun _ => { rc := 0, out := "", err := "", creates := [] },
    tmpdirName := "/tmp/podcast_w", hasCallback := false }

/-- Tool resolvable, but `outro.mp3` and `jingle_hinten.mp3` are absent. -/
def envMissing : Env :=
  { osIsNT := false, meipassBase := "/base", which := fun _ => some "/usr/bin/ffmpeg",
    fs0 := ["ep/intro.mp3", "ep/vorab.mp3", "ep/kapitel.mp3", "ep/jingle_vorne.mp3"],
    run := fun _ => { rc := 0, out := "", err := "", creates := [] },
    tmpdirName := "/tmp/podcast_w", hasCallback := false }

/-- The analysis run itself exits non-zero. -/
def envAnaFail : Env :=
  { osIsNT := false, meipassBase := "/base", which := fun _ => some "/usr/bin/ffmpeg",
    fs0 := epFiles,
    run := fun _ => { rc := 1, out := "", err := "analysis blew up", creates := [] },
    tmpdirName := "/tmp/podcast_w", hasCallback := false }

/-- The analysis succeeds but reports a textual NaN loudness. -/
def envNanParse : Env :=
  { osIsNT := false, meipassBase := "/base", which := fun _ => some "/usr/bin/ffmpeg",
    fs0 := epFiles,
    run := fun _ => { rc := 0, out := "", err := "\x7b\"input_i\" : \"NaN\"\x7d", creates := [] },
    tmpdirName := "/tmp/podcast_w", hasCallback := false }

/-- Normalization runs exit non-zero (normalize commands carry `-vn`). -/
def envNormFail : Env :=
  { osIsNT := false, meipassBase := "/base", which := fun _ => some "/usr/bin/ffmpeg",
    fs0 := epFiles,
    run := fun cmd =>
      if cmd.contains "-vn" then { rc := 1, out := "", err := "normalize blew up", creates := [] }
      else { rc := 0, out := "", err := goodStream, creates := [] },
    tmpdirName := "/tmp/podcast_w", hasCallback := false }

/-- The concatenation run exits non-zero with a diagnostic and creates no
file; analysis and normalization succeed. -/
def envConcFail : Env :=
  { osIsNT := false, meipassBase := "/base", which := fun _ => some "/usr/bin/ffmpeg",
    fs0 := epFiles,
    run := fun cmd =>
      if cmd.contains "-filter_complex" then
        { rc := 1, out := "", err := "Invalid data found", creates := [] }
      else { rc := 0, out := "", err := goodStream, creates := [] },
    tmpdirName := "/tmp/podcast_w", hasCallback := false }

/-- Like `envConcFail`, but the failing concatenation run leaves a file at
its output path (the last command argument) before dying — exactly what an
encoder that opens its output early can do. -/
def envConcPartial : Env :=
  { osIsNT := false, meipassBase := "/base", which := fun _ => some "/usr/bin/ffmpeg",
    fs0 := epFiles,
    run := fun cmd =>
      if cmd.contains "-filter_complex" then
        { rc := 1, out := "", err := "Invalid data found", creates := [cmd.getLastD ""] }
      else { rc := 0, out := "", err := goodStream, creates := [] },
    tmpdirName := "/tmp/podcast_w", hasCallback := false }

/-- The external tool's contract for successful encodes (spec §4.4): a
zero-exit concatenation run has created its output file. -/
def FaithfulConcat (env : Env) : Prop :=
  ∀ f ins out q, (env.run (concatenate_cmd f ins out q)).rc = 0 →
    out ∈ (env.run (concatenate_cmd f ins out q)).creates

/-- Holds exactly on successful pipeline results. -/
def exceptIsOk : Except PyExc String → Bool
  | .ok _ => true
  | .error _ => false

/-! ### Lemmas and claim theorems -/

theorem splitAtClose_length : ∀ (cs a b : List Char),
    splitAtClose cs = some (a, b) → b.length < cs.length := by
  intro cs
  induction cs with
  | nil => intro a b h; simp [splitAtClose] at h
  | cons c rest ih =>
    intro a b h
    simp only [splitAtClose] at h
    by_cases hc : c = rbrace
    · subst hc
      rw [if_pos rfl] at h
      simp only [Option.some.injEq, Prod.mk.injEq] at h
      rw [← h.2]
      simp
    · rw [if_neg hc] at h
      cases hsp : splitAtClose rest with
      | none => rw [hsp] at h; simp at h
      | some p =>
        obtain ⟨a0, b0⟩ := p
        rw [hsp] at h
        simp only [Option.some.injEq, Prod.mk.injEq] at h
        have hb : b0 = b := h.2
        have := ih a0 b0 hsp
        rw [hb] at this
        simp only [List.length_cons]
        omega

theorem normalize_ok_iff (env : Env) (ffmpeg infile outfile : String) (t tp lra : Rat)
    (sr ch : Nat) :
    normalize_to_target_i env ffmpeg infile outfile t tp lra sr ch = .ok () ↔
      (env.run (normalize_cmd ffmpeg infile outfile t tp lra sr ch)).rc = 0 := by
  unfold normalize_to_target_i
  by_cases h : (env.run (normalize_cmd ffmpeg infile outfile t tp lra sr ch)).rc = 0 <;>
    simp [h]

theorem concatenate_ok_iff (env : Env) (ffmpeg : String) (ins : List String)
    (out : String) (q : Nat) :
    concatenate_audio env ffmpeg ins out q = .ok () ↔
      (env.run (concatenate_cmd ffmpeg ins out q)).rc = 0 := by
  unfold concatenate_audio
  by_cases h : (env.run (concatenate_cmd ffmpeg ins out q)).rc = 0 <;> simp [h]

/-- Shape of a successful fan-out: the `normalized` mapping, the appended
events and the appended created files. -/
theorem normalizeAll_ok_shape (env : Env) (ffmpeg td : String) (b : Rat) :
    ∀ (roles : List (String × String)) (st : St) (m : List (String × String)) (st' : St),
    normalizeAll env ffmpeg td b roles st = (.ok m, st') →
    m = roles.map (mkNorm td) ∧
    st'.trace = st.trace ++ normEvents env td b roles ∧
    st'.fs = st.fs ++ normCreates env ffmpeg td b roles := by
  intro roles
  induction roles with
  | nil =>
    intro st m st' h
    simp only [normalizeAll, Prod.mk.injEq] at h
    obtain ⟨h1, h2⟩ := h
    constructor
    · simpa using h1.symm
    · rw [← h2]; simp [normEvents, normCreates]
  | cons np rest ih =>
    intro st m st' h
    obtain ⟨name, path⟩ := np
    simp only [normalizeAll] at h
    cases hn : normalize_to_target_i env ffmpeg path (pjoin td (name ++ "_norm.wav")) b
        DEFAULT_TRUE_PEAK DEFAULT_LRA 48000 2 with
    | error e => rw [hn] at h; simp at h
    | ok u =>
      rw [hn] at h
      rcases hna : normalizeAll env ffmpeg td b rest
        (applyCreates env
          (normalize_cmd ffmpeg path (pjoin td (name ++ "_norm.wav")) b
            DEFAULT_TRUE_PEAK DEFAULT_LRA 48000 2)
          (pushEvent (pushStatus env st ("Normalisiere " ++ name ++ "…"))
            (.normalizeCall path (pjoin td (name ++ "_norm.wav")) b))) with ⟨r, st4⟩
      rw [hna] at h
      cases r with
      | error e => simp at h
      | ok m0 =>
        simp only [Prod.mk.injEq, Except.ok.injEq] at h
        obtain ⟨hm, hst⟩ := h
        have := ih _ m0 st4 hna
        obtain ⟨hm0, htr, hfs⟩ := this
        refine ⟨?_, ?_, ?_⟩
        · rw [← hm, hm0]; simp [mkNorm]
        · rw [← hst, htr]
          simp [applyCreates, pushEvent, pushStatus, normEvents]
          cases hcb : env.hasCallback <;> simp [hcb, List.append_assoc]
        · rw [← hst, hfs]
          simp [applyCreates, pushEvent, pushStatus, normCreates]
          cases hcb : env.hasCallback <;> simp [hcb, List.append_assoc]

/-- When every normalize run in a role list exits zero, the fan-out
succeeds and its result state is fully determined. -/
theorem normalizeAll_ok_of_rc (env : Env) (ffmpeg td : String) (b : Rat) :
    ∀ (roles : List (String × String)) (st : St),
    (∀ np ∈ roles,
      (env.run (normalize_cmd ffmpeg np.2 (pjoin td (np.1 ++ "_norm.wav")) b
        DEFAULT_TRUE_PEAK DEFAULT_LRA 48000 2)).rc = 0) →
    normalizeAll env ffmpeg td b roles st =
      (.ok (roles.map (mkNorm td)),
       { fs := st.fs ++ normCreates env ffmpeg td b roles,
         trace := st.trace ++ normEvents env td b roles }) := by
  intro roles
  induction roles with
  | nil =>
    intro st _
    simp [normalizeAll, normEvents, normCreates]
  | cons np rest ih =>
    intro st hall
    obtain ⟨name, path⟩ := np
    have hhd := hall (name, path) (by simp)
    have htl : ∀ np ∈ rest,
        (env.run (normalize_cmd ffmpeg np.2 (pjoin td (np.1 ++ "_norm.wav")) b
          DEFAULT_TRUE_PEAK DEFAULT_LRA 48000 2)).rc = 0 := by
      intro np hnp; exact hall np (by simp [hnp])
    have hok : normalize_to_target_i env ffmpeg path (pjoin td (name ++ "_norm.wav")) b
        DEFAULT_TRUE_PEAK DEFAULT_LRA 48000 2 = .ok () :=
      (normalize_ok_iff env ffmpeg path (pjoin td (name ++ "_norm.wav")) b
        DEFAULT_TRUE_PEAK DEFAULT_LRA 48000 2).mpr hhd
    simp only [normalizeAll, hok]
    rw [ih _ htl]
    simp [mkNorm, applyCreates, pushEvent, pushStatus, normEvents, normCreates]
    cases hcb : env.hasCallback <;> simp [hcb, List.append_assoc]

theorem normEvents_filter_measure (env : Env) (td : String) (b : Rat)
    (roles : List (String × String)) :
    (normEvents env td b roles).filter isMeasureEv = [] := by
  induction roles with
  | nil => simp [normEvents]
  | cons np rest ih =>
    simp only [normEvents, List.flatMap_cons, List.filter_append] at *
    rw [ih]
    cases hcb : env.hasCallback <;> simp [hcb, isMeasureEv]

theorem normEvents_filter_concat (env : Env) (td : String) (b : Rat)
    (roles : List (String × String)) :
    (normEvents env td b roles).filter isConcatEv = [] := by
  induction roles with
  | nil => simp [normEvents]
  | cons np rest ih =>
    simp only [normEvents, List.flatMap_cons, List.filter_append] at *
    rw [ih]
    cases hcb : env.hasCallback <;> simp [hcb, isConcatEv]

theorem normEvents_filter_normalize (env : Env) (td : String) (b : Rat)
    (roles : List (String × String)) :
    (normEvents env td b roles).filter isNormalizeEv =
      roles.map (fun np => .normalizeCall np.2 (pjoin td (np.1 ++ "_norm.wav")) b) := by
  induction roles with
  | nil => simp [normEvents]
  | cons np rest ih =>
    simp only [normEvents, List.flatMap_cons, List.filter_append] at *
    rw [ih]
    cases hcb : env.hasCallback <;> simp [hcb, isNormalizeEv]

theorem cleanupTd_trace (td : String) (st : St) : (cleanupTd td st).trace = st.trace := rfl

theorem pushEvent_fs (st : St) (e : Event) : (pushEvent st e).fs = st.fs := rfl

theorem pushStatus_fs (env : Env) (st : St) (msg : String) :
    (pushStatus env st msg).fs = st.fs := by
  unfold pushStatus
  split <;> rfl

theorem cleanupTd_no_workspace (td : String) (st : St) :
    (cleanupTd td st).fs.all (fun p => !(isWorkspacePath td p)) = true := by
  rw [List.all_eq_true]
  intro p hp
  have := List.mem_filter.mp hp
  simpa using this.2

theorem cleanupTd_mem (td p : String) (st : St) (hp : p ∈ st.fs)
    (h : isWorkspacePath td p = false) : p ∈ (cleanupTd td st).fs := by
  apply List.mem_filter.mpr
  exact ⟨hp, by simp [h]⟩

theorem cleanupTd_not_mem (td p : String) (st : St) (hp : p ∉ st.fs) :
    p ∉ (cleanupTd td st).fs := by
  intro hmem
  exact hp (List.mem_filter.mp hmem).1

/-- Resolving the eight `CONCAT_ORDER` lookups against the normalized
mapping of the six roles. -/
theorem concat_files_eval (td ef : String) :
    CONCAT_ORDER.map (fun name => ((List.lookup name ((roleFiles ef).map (mkNorm td))).getD "")) =
    concatList td := rfl

/-- Once the tool resolves, validation passes and the baseline measurement
succeeds, the whole run is the workspace stage applied to the
post-measurement state. -/
theorem process_run_eq (env : Env) (ef : String) (ch : Nat) (of : String)
    (f : String) (b : Rat)
    (hff : which_or_bundled env (ffmpegBinName env) = some f)
    (hm : missingRoles env.fs0 ef = [])
    (hb : measure_integrated_loudness env f (pjoin ef "jingle_vorne.mp3") = .ok b) :
    process_episode env ef ch of =
      pe_stage_workspace env f ef ch of b
        (applyCreates env (measure_cmd f (pjoin ef "jingle_vorne.mp3"))
          (pushEvent (pushStatus env { fs := env.fs0, trace := [] }
            "Messe Baseline-Lautstärke (jingle_vorne)…")
            (.measureCall (pjoin ef "jingle_vorne.mp3")))) := by
  simp only [process_episode, hff, hm, if_pos, pe_stage_measure, hb]

/-- Inversion of a successful concatenation stage. -/
theorem concat_inversion (env : Env) (f td : String) (m : List (String × String))
    (ch : Nat) (of : String) (st0 : St) (p : String) (st : St)
    (h : pe_stage_concat env f td m ch of st0 = (.ok p, st)) :
    (env.run (concatenate_cmd f (CONCAT_ORDER.map
      (fun name => ((List.lookup name m).getD ""))) (outPathOf of ch) 2)).rc = 0 ∧
    p = outPathOf of ch ∧
    st = cleanupTd td (applyCreates env (concatenate_cmd f
      (CONCAT_ORDER.map (fun name => ((List.lookup name m).getD "")))
      (outPathOf of ch) 2)
      (pushEvent (pushStatus env st0 "Füge Audio zusammen…")
        (.concatCall (CONCAT_ORDER.map (fun name => ((List.lookup name m).getD "")))
          (outPathOf of ch)))) := by
  simp only [pe_stage_concat, outPathOf] at h ⊢
  cases hc : concatenate_audio env f
      (CONCAT_ORDER.map (fun name => ((List.lookup name m).getD "")))
      (pjoin of ("Kapitel " ++ toString ch ++ ".mp3")) 2 with
  | error e => rw [hc] at h; simp at h
  | ok u =>
    rw [hc] at h
    simp only [Prod.mk.injEq, Except.ok.injEq] at h
    cases u
    refine ⟨(concatenate_ok_iff env f _ _ 2).mp hc, h.1.symm, h.2.symm⟩

/-- Inversion of a successful workspace stage: the concat run exited zero,
the returned path is the expected one, and the final trace and filesystem
are fully determined. -/
theorem workspace_inversion (env : Env) (f ef : String) (ch : Nat) (of : String)
    (b : Rat) (st0 : St) (p : String) (st : St)
    (h : pe_stage_workspace env f ef ch of b st0 = (.ok p, st)) :
    (env.run (concatenate_cmd f (concatList env.tmpdirName) (outPathOf of ch) 2)).rc = 0 ∧
    p = outPathOf of ch ∧
    st.trace = st0.trace ++ normEvents env env.tmpdirName b (roleFiles ef) ++
      (if env.hasCallback then [Event.statusMsg "Füge Audio zusammen…"] else []) ++
      [.concatCall (concatList env.tmpdirName) (outPathOf of ch)] ∧
    st.fs = ((st0.fs ++ [env.tmpdirName] ++
        normCreates env f env.tmpdirName b (roleFiles ef)) ++
      (env.run (concatenate_cmd f (concatList env.tmpdirName) (outPathOf of ch) 2)).creates).filter
      (fun q => !(isWorkspacePath env.tmpdirName q)) := by
  simp only [pe_stage_workspace] at h
  rcases hna : normalizeAll env f env.tmpdirName b (roleFiles ef)
      { st0 with fs := st0.fs ++ [env.tmpdirName] } with ⟨r, st2⟩
  rw [hna] at h
  cases r with
  | error e => simp at h
  | ok m =>
    obtain ⟨hm, htr, hfs⟩ := normalizeAll_ok_shape env f env.tmpdirName b _ _ _ _ hna
    obtain ⟨hrc, hp, hst⟩ := concat_inversion env f env.tmpdirName m ch of st2 p st h
    rw [hm, concat_files_eval] at hrc hst
    refine ⟨hrc, hp, ?_, ?_⟩
    · rw [hst]
      simp only [cleanupTd, applyCreates, pushEvent, pushStatus]
      cases hcb : env.hasCallback <;>
        simp [hcb, htr, List.append_assoc]
    · rw [hst]
      simp only [cleanupTd, applyCreates, pushEvent, pushStatus]
      cases hcb : env.hasCallback <;>
        simp [hcb, hfs, List.append_assoc]

/-- Every exit of the workspace stage passes through the scoped cleanup:
no workspace path survives in the final filesystem. -/
theorem workspace_always_cleanup (env : Env) (f ef : String) (ch : Nat) (of : String)
    (b : Rat) (st0 : St) :
    ((pe_stage_workspace env f ef ch of b st0).2).fs.all
      (fun q => !(isWorkspacePath env.tmpdirName q)) = true := by
  simp only [pe_stage_workspace]
  rcases normalizeAll env f env.tmpdirName b (roleFiles ef)
      { st0 with fs := st0.fs ++ [env.tmpdirName] } with ⟨r, st2⟩
  cases r with
  | error e => exact cleanupTd_no_workspace env.tmpdirName st2
  | ok m =>
    simp only [pe_stage_concat]
    cases concatenate_audio env f
        (CONCAT_ORDER.map (fun name => ((List.lookup name m).getD "")))
        (pjoin of ("Kapitel " ++ toString ch ++ ".mp3")) 2 with
    | error e => exact cleanupTd_no_workspace env.tmpdirName _
    | ok u => exact cleanupTd_no_workspace env.tmpdirName _

/-! ### Claim C3 -/

/-- C3: for a zero-exit analysis run, `measure_integrated_loudness` parses
the **last** brace-delimited JSON block of the diagnostic stream — never an
earlier one — and returns the float value of its `input_i` field, provided
that field is present and not the text "nan". -/
theorem c3_last_block_parsed (env : Env) (ffmpeg infile blk : String)
    (fields : List (String × JVal)) (v : JVal) (q : Rat)
    (hrc : (env.run (measure_cmd ffmpeg infile)).rc = 0)
    (hlast : (findallJsonBlocks (env.run (measure_cmd ffmpeg infile)).err).getLast? = some blk)
    (hload : json_loads_obj blk = some fields)
    (hget : jGet fields "input_i" = some v)
    (hnn : v ≠ .jnull)
    (hnan : strToLower (pyStr v) ≠ "nan")
    (hfl : pyFloatOfJVal v = some q) :
    measure_integrated_loudness env ffmpeg infile = .ok q := by
  unfold measure_integrated_loudness
  rw [if_neg (by simp [hrc])]
  simp only [hlast, hload, hget]
  cases v with
  | jnull => exact absurd rfl hnn
  | jbool b => simp only [if_neg hnan, hfl]
  | jnum qq => simp only [if_neg hnan, hfl]
  | jstr s => simp only [if_neg hnan, hfl]
  | jarr xs => simp only [if_neg hnan, hfl]
  | jobj fs => simp only [if_neg hnan, hfl]

/-- Witness for C3: a stream with two JSON blocks (`-99.00` then `-23.50`)
yields the value of the second (last) block. -/
theorem c3_last_block_parsed_witness :
    measure_integrated_loudness envOk "/usr/bin/ffmpeg" "ep/jingle_vorne.mp3" =
      .ok (mkRat (-47) 2) :=
  c3_last_block_parsed envOk "/usr/bin/ffmpeg" "ep/jingle_vorne.mp3"
    "\x7b\"input_i\" : \"-23.50\"\x7d" [("input_i", .jstr "-23.50")] (.jstr "-23.50")
    (mkRat (-47) 2) rfl rfl rfl rfl (by simp) (by decide) (by decide)

/-! ### Claim C5 -/

/-- C5: with the tool resolvable and at least one of the six clip paths
missing, the pipeline fails with the missing-files error whose message
enumerates every missing role (the full filter over all six roles), and no
external call is made. -/
theorem c5_missing_files_enumerated (env : Env) (ef : String) (ch : Nat) (of : String)
    (f : String)
    (hff : which_or_bundled env (ffmpegBinName env) = some f)
    (hmiss : missingRoles env.fs0 ef ≠ []) :
    (process_episode env ef ch of).1 =
      .error (.runtimeError (missingMsg (missingRoles env.fs0 ef))) ∧
    (process_episode env ef ch of).2.trace = [] := by
  unfold process_episode
  rw [hff]
  simp [hmiss]

/-- Witness for C5: `outro` and `jingle_hinten` missing — the message
lists both `outro.mp3` and `jingle_hinten.mp3`. -/
theorem c5_missing_files_enumerated_witness :
    (process_episode envMissing "ep" 1 "out").1 =
      .error (.runtimeError
        "Fehlende Dateien:\n  - outro.mp3\n  - jingle_hinten.mp3") ∧
    (process_episode envMissing "ep" 1 "out").2.trace = [] := by
  have h := c5_missing_files_enumerated envMissing "ep" 1 "out" "/usr/bin/ffmpeg"
    rfl (by decide)
  exact ⟨h.1.trans (congrArg Except.error (congrArg PyExc.runtimeError (by decide))), h.2⟩

/-! ### Claim C8 (corrected) -/

/-- Counterexample to C8: a run whose clip set has missing files *and*
whose external tool is unresolvable fails with the tool-not-found error,
not with the missing-files error — the source resolves ffmpeg (line 133)
before validating the clip paths (line 150). -/
theorem c8_counterexample :
    missingRoles envNoTool.fs0 "ep" ≠ [] ∧
    (process_episode envNoTool "ep" 1 "out").1 = .error (.runtimeError toolNotFoundMsg) ∧
    toolNotFoundMsg ≠ missingMsg (missingRoles envNoTool.fs0 "ep") := by
  refine ⟨by decide, rfl, by decide⟩

/-- C8 amended: tool resolution is performed before clip-set validation;
whenever the external tool is unresolvable the failure is the
tool-not-found error, even when the clip set also has missing files. -/
theorem c8_amended_tool_first (env : Env) (ef : String) (ch : Nat) (of : String)
    (h : which_or_bundled env (ffmpegBinName env) = none) :
    (process_episode env ef ch of).1 = .error (.runtimeError toolNotFoundMsg) := by
  unfold process_episode
  rw [h]

/-- Witness for the amended C8. -/
theorem c8_amended_tool_first_witness :
    (process_episode envNoTool "ep" 1 "out").1 = .error (.runtimeError toolNotFoundMsg) :=
  c8_amended_tool_first envNoTool "ep" 1 "out" rfl

/-! ### Claim C10 (corrected) -/

/-- Counterexample to C10: `-0.001` and `0.001` agree when rounded to two
decimals (both round to 0), yet they produce different normalize commands —
Python's fixed-point formatting keeps the sign and renders `-0.00`. -/
theorem c10_counterexample :
    ratScaledRound 2 (mkRat (-1) 1000) = ratScaledRound 2 (mkRat 1 1000) ∧
    normalize_cmd "ffmpeg" "in.mp3" "out.wav" (mkRat (-1) 1000)
      DEFAULT_TRUE_PEAK DEFAULT_LRA 48000 2 ≠
    normalize_cmd "ffmpeg" "in.mp3" "out.wav" (mkRat 1 1000)
      DEFAULT_TRUE_PEAK DEFAULT_LRA 48000 2 := by
  refine ⟨by decide, by decide⟩

/-- C10 amended: the loudness filter encodes the target to two decimal
places, the true-peak ceiling to one and the loudness range to zero (shown
on the default configuration), and any two target values with the *same
two-decimal rendering* produce an identical external command; numeric
agreement of the rounded values is not quite enough because a negative
value rounding to zero renders as `-0.00`. -/
theorem c10_amended_format_congruence (f i o : String) (t1 t2 tp lra : Rat)
    (sr ch : Nat)
    (h : fmtFixed 2 t1 = fmtFixed 2 t2) :
    loudnorm_af (mkRat (-2361) 100) DEFAULT_TRUE_PEAK DEFAULT_LRA =
      "loudnorm=I=-23.61:TP=-1.5:LRA=11" ∧
    normalize_cmd f i o t1 tp lra sr ch = normalize_cmd f i o t2 tp lra sr ch := by
  constructor
  · decide
  · simp [normalize_cmd, loudnorm_af, h]

/-- Witness for the amended C10: `23.615` and `23.62` differ as raw values
but share the two-decimal rendering `23.62` (round-half-to-even), hence
identical commands. -/
theorem c10_amended_format_congruence_witness :
    loudnorm_af (mkRat (-2361) 100) DEFAULT_TRUE_PEAK DEFAULT_LRA =
      "loudnorm=I=-23.61:TP=-1.5:LRA=11" ∧
    normalize_cmd "ffmpeg" "in.mp3" "out.wav" (mkRat 23615 1000)
      DEFAULT_TRUE_PEAK DEFAULT_LRA 48000 2 =
    normalize_cmd "ffmpeg" "in.mp3" "out.wav" (mkRat 2362 100)
      DEFAULT_TRUE_PEAK DEFAULT_LRA 48000 2 :=
  c10_amended_format_congruence "ffmpeg" "in.mp3" "out.wav" (mkRat 23615 1000)
    (mkRat 2362 100) DEFAULT_TRUE_PEAK DEFAULT_LRA 48000 2 (by decide)

/-! ### Claim C1 -/

/-- C1: in every successful run the analyzer is invoked exactly once, and
only on the lead jingle, and each of the six normalize calls (one per
unique role, the lead jingle included) receives exactly the measured
baseline loudness as its target argument. -/
theorem c1_targets_equal_baseline (env : Env) (ef : String) (ch : Nat) (of : String)
    (f : String) (b : Rat) (p : String) (st : St)
    (hff : which_or_bundled env (ffmpegBinName env) = some f)
    (hb : measure_integrated_loudness env f (pjoin ef "jingle_vorne.mp3") = .ok b)
    (h : process_episode env ef ch of = (.ok p, st)) :
    st.trace.filter isMeasureEv = [Event.measureCall (pjoin ef "jingle_vorne.mp3")] ∧
    st.trace.filter isNormalizeEv =
      (roleFiles ef).map (fun np =>
        Event.normalizeCall np.2 (pjoin env.tmpdirName (np.1 ++ "_norm.wav")) b) ∧
    ((roleFiles ef).map (fun np =>
        Event.normalizeCall np.2 (pjoin env.tmpdirName (np.1 ++ "_norm.wav")) b)).length = 6 := by
  by_cases hm : missingRoles env.fs0 ef = []
  case neg =>
    simp only [process_episode, hff] at h
    rw [if_neg hm] at h
    simp at h
  case pos =>
    rw [process_run_eq env ef ch of f b hff hm hb] at h
    obtain ⟨hrc, hp, htr, hfs⟩ := workspace_inversion env f ef ch of b _ p st h
    refine ⟨?_, ?_, by simp [roleFiles]⟩
    · rw [htr]
      simp only [applyCreates, pushEvent, pushStatus, List.filter_append,
        normEvents_filter_measure]
      cases hcb : env.hasCallback <;> simp [hcb, isMeasureEv]
    · rw [htr]
      simp only [applyCreates, pushEvent, pushStatus, List.filter_append,
        normEvents_filter_normalize]
      cases hcb : env.hasCallback <;> simp [hcb, isMeasureEv, isNormalizeEv]

/-- Witness for C1 on the healthy environment. -/
theorem c1_targets_equal_baseline_witness :
    ((process_episode envOk "ep" 1 "out").2).trace.filter isMeasureEv =
      [Event.measureCall (pjoin "ep" "jingle_vorne.mp3")] ∧
    ((process_episode envOk "ep" 1 "out").2).trace.filter isNormalizeEv =
      (roleFiles "ep").map (fun np =>
        Event.normalizeCall np.2 (pjoin "/tmp/podcast_w" (np.1 ++ "_norm.wav")) (mkRat (-47) 2)) ∧
    ((roleFiles "ep").map (fun np =>
        Event.normalizeCall np.2 (pjoin "/tmp/podcast_w" (np.1 ++ "_norm.wav")) (mkRat (-47) 2))).length = 6 :=
  c1_targets_equal_baseline envOk "ep" 1 "out" "/usr/bin/ffmpeg" (mkRat (-47) 2)
    "out/Kapitel 1.mp3" ((process_episode envOk "ep" 1 "out").2) rfl (by decide) (by decide)

/-! ### Claim C2 -/

/-- C2: in every successful run the concatenator receives exactly the
8-entry list `[jingle_vorne, intro, jingle_hinten, vorab, kapitel,
jingle_vorne, outro, jingle_hinten]` of normalized workspace files, where
entries 1 and 6 are the same normalized lead-jingle path and entries 3 and
8 the same normalized trail-jingle path. -/
theorem c2_concat_assembly_order (env : Env) (ef : String) (ch : Nat) (of : String)
    (f : String) (b : Rat) (p : String) (st : St)
    (hff : which_or_bundled env (ffmpegBinName env) = some f)
    (hb : measure_integrated_loudness env f (pjoin ef "jingle_vorne.mp3") = .ok b)
    (h : process_episode env ef ch of = (.ok p, st)) :
    st.trace.filter isConcatEv =
      [Event.concatCall (concatList env.tmpdirName) (outPathOf of ch)] ∧
    (concatList env.tmpdirName).length = 8 ∧
    concatList env.tmpdirName =
      [pjoin env.tmpdirName "jingle_vorne_norm.wav", pjoin env.tmpdirName "intro_norm.wav",
       pjoin env.tmpdirName "jingle_hinten_norm.wav", pjoin env.tmpdirName "vorab_norm.wav",
       pjoin env.tmpdirName "kapitel_norm.wav", pjoin env.tmpdirName "jingle_vorne_norm.wav",
       pjoin env.tmpdirName "outro_norm.wav", pjoin env.tmpdirName "jingle_hinten_norm.wav"] ∧
    (concatList env.tmpdirName).getD 0 "" = (concatList env.tmpdirName).getD 5 "" ∧
    (concatList env.tmpdirName).getD 2 "" = (concatList env.tmpdirName).getD 7 "" := by
  by_cases hm : missingRoles env.fs0 ef = []
  case neg =>
    simp only [process_episode, hff] at h
    rw [if_neg hm] at h
    simp at h
  case pos =>
    rw [process_run_eq env ef ch of f b hff hm hb] at h
    obtain ⟨hrc, hp, htr, hfs⟩ := workspace_inversion env f ef ch of b _ p st h
    refine ⟨?_, by simp [concatList], rfl, rfl, rfl⟩
    rw [htr]
    simp only [applyCreates, pushEvent, pushStatus, List.filter_append,
      normEvents_filter_concat]
    cases hcb : env.hasCallback <;> simp [hcb, isConcatEv]

/-- Witness for C2 on the healthy environment. -/
theorem c2_concat_assembly_order_witness :
    ((process_episode envOk "ep" 1 "out").2).trace.filter isConcatEv =
      [Event.concatCall (concatList "/tmp/podcast_w") (outPathOf "out" 1)] ∧
    (concatList "/tmp/podcast_w").length = 8 ∧
    concatList "/tmp/podcast_w" =
      [pjoin "/tmp/podcast_w" "jingle_vorne_norm.wav", pjoin "/tmp/podcast_w" "intro_norm.wav",
       pjoin "/tmp/podcast_w" "jingle_hinten_norm.wav", pjoin "/tmp/podcast_w" "vorab_norm.wav",
       pjoin "/tmp/podcast_w" "kapitel_norm.wav", pjoin "/tmp/podcast_w" "jingle_vorne_norm.wav",
       pjoin "/tmp/podcast_w" "outro_norm.wav", pjoin "/tmp/podcast_w" "jingle_hinten_norm.wav"] ∧
    (concatList "/tmp/podcast_w").getD 0 "" = (concatList "/tmp/podcast_w").getD 5 "" ∧
    (concatList "/tmp/podcast_w").getD 2 "" = (concatList "/tmp/podcast_w").getD 7 "" :=
  c2_concat_assembly_order envOk "ep" 1 "out" "/usr/bin/ffmpeg" (mkRat (-47) 2)
    "out/Kapitel 1.mp3" ((process_episode envOk "ep" 1 "out").2) rfl (by decide) (by decide)

/-! ### Claim C4 -/

/-- A failing baseline measurement aborts the run with that exception,
after only the status message and the single analyzer invocation. -/
theorem process_measure_error (env : Env) (ef : String) (ch : Nat) (of : String)
    (f : String) (e : PyExc)
    (hff : which_or_bundled env (ffmpegBinName env) = some f)
    (hm : missingRoles env.fs0 ef = [])
    (hb : measure_integrated_loudness env f (pjoin ef "jingle_vorne.mp3") = .error e) :
    (process_episode env ef ch of).1 = .error e ∧
    ((process_episode env ef ch of).2).trace =
      (if env.hasCallback then [Event.statusMsg "Messe Baseline-Lautstärke (jingle_vorne)…"]
       else []) ++
      [Event.measureCall (pjoin ef "jingle_vorne.mp3")] := by
  simp only [process_episode, hff, hm, if_pos, pe_stage_measure, hb]
  refine ⟨trivial, ?_⟩
  simp only [applyCreates, pushEvent, pushStatus]
  cases hcb : env.hasCallback <;> simp [hcb]

/-- C4: when the zero-exit analysis stream yields no JSON block, or the
last block's `input_i` is missing, null, or the text "nan"
(case-insensitively), the run fails with one of the two parse-error
messages and performs zero normalize calls. -/
theorem c4_parse_failure_zero_normalize (env : Env) (ef : String) (ch : Nat) (of : String)
    (f blk : String) (fields : List (String × JVal))
    (hff : which_or_bundled env (ffmpegBinName env) = some f)
    (hm : missingRoles env.fs0 ef = [])
    (hrc : (env.run (measure_cmd f (pjoin ef "jingle_vorne.mp3"))).rc = 0)
    (hbad : findallJsonBlocks (env.run (measure_cmd f (pjoin ef "jingle_vorne.mp3"))).err = [] ∨
      ((findallJsonBlocks (env.run (measure_cmd f (pjoin ef "jingle_vorne.mp3"))).err).getLast? =
          some blk ∧
        json_loads_obj blk = some fields ∧
        (jGet fields "input_i" = none ∨ jGet fields "input_i" = some .jnull ∨
          (∃ v, jGet fields "input_i" = some v ∧ strToLower (pyStr v) = "nan")))) :
    ((process_episode env ef ch of).1 = .error (.runtimeError
        ("Could not parse loudnorm JSON for " ++ pjoin ef "jingle_vorne.mp3" ++
          ".\nffmpeg stderr:\n" ++ (env.run (measure_cmd f (pjoin ef "jingle_vorne.mp3"))).err)) ∨
      (process_episode env ef ch of).1 = .error (.runtimeError
        ("Invalid loudness (input_i) for " ++ pjoin ef "jingle_vorne.mp3" ++ "."))) ∧
    ((process_episode env ef ch of).2).trace.filter isNormalizeEv = [] := by
  have hme : measure_integrated_loudness env f (pjoin ef "jingle_vorne.mp3") = .error (.runtimeError
        ("Could not parse loudnorm JSON for " ++ pjoin ef "jingle_vorne.mp3" ++
          ".\nffmpeg stderr:\n" ++ (env.run (measure_cmd f (pjoin ef "jingle_vorne.mp3"))).err)) ∨
      measure_integrated_loudness env f (pjoin ef "jingle_vorne.mp3") = .error (.runtimeError
        ("Invalid loudness (input_i) for " ++ pjoin ef "jingle_vorne.mp3" ++ ".")) := by
    unfold measure_integrated_loudness
    rw [if_neg (by simp [hrc])]
    rcases hbad with hnone | ⟨hlast, hload, hbadf⟩
    · left
      rw [hnone]
      rfl
    · right
      simp only [hlast, hload]
      rcases hbadf with hno | hnull | ⟨v, hv, hnan⟩
      · rw [hno]
      · rw [hnull]
      · cases v with
        | jnull => exact absurd hnan (by decide)
        | jbool b => simp only [hv, if_pos hnan]
        | jnum qq => simp only [hv, if_pos hnan]
        | jstr s => simp only [hv, if_pos hnan]
        | jarr xs => simp only [hv, if_pos hnan]
        | jobj fs => simp only [hv, if_pos hnan]
  rcases hme with hme | hme <;>
    obtain ⟨h1, h2⟩ := process_measure_error env ef ch of f _ hff hm hme
  · refine ⟨Or.inl h1, ?_⟩
    rw [h2]
    cases hcb : env.hasCallback <;> simp [hcb, isNormalizeEv]
  · refine ⟨Or.inr h1, ?_⟩
    rw [h2]
    cases hcb : env.hasCallback <;> simp [hcb, isNormalizeEv]

/-- Witness for C4: a stream whose only JSON block carries
`input_i: "NaN"` fails with the invalid-loudness message and triggers no
normalization. -/
theorem c4_parse_failure_zero_normalize_witness :
    ((process_episode envNanParse "ep" 1 "out").1 = .error (.runtimeError
        ("Could not parse loudnorm JSON for " ++ pjoin "ep" "jingle_vorne.mp3" ++
          ".\nffmpeg stderr:\n" ++
          (envNanParse.run (measure_cmd "/usr/bin/ffmpeg" (pjoin "ep" "jingle_vorne.mp3"))).err)) ∨
      (process_episode envNanParse "ep" 1 "out").1 = .error (.runtimeError
        ("Invalid loudness (input_i) for " ++ pjoin "ep" "jingle_vorne.mp3" ++ "."))) ∧
    ((process_episode envNanParse "ep" 1 "out").2).trace.filter isNormalizeEv = [] :=
  c4_parse_failure_zero_normalize envNanParse "ep" 1 "out" "/usr/bin/ffmpeg"
    "\x7b\"input_i\" : \"NaN\"\x7d" [("input_i", .jstr "NaN")]
    rfl (by decide) rfl
    (Or.inr ⟨rfl, rfl, Or.inr (Or.inr ⟨.jstr "NaN", rfl, by decide⟩)⟩)

/-- A succeeding workspace stage returns the expected output path, and
(under the tool contract) that file exists afterwards. -/
theorem workspace_success_output (env : Env) (f ef : String) (ch : Nat) (of : String)
    (b : Rat) (st0 : St)
    (hft : FaithfulConcat env)
    (hout : isWorkspacePath env.tmpdirName (outPathOf of ch) = false) :
    exceptIsOk (pe_stage_workspace env f ef ch of b st0).1 = true →
      (pe_stage_workspace env f ef ch of b st0).1 = .ok (outPathOf of ch) ∧
      outPathOf of ch ∈ ((pe_stage_workspace env f ef ch of b st0).2).fs := by
  intro hok
  rcases hres : pe_stage_workspace env f ef ch of b st0 with ⟨r, st⟩
  rw [hres] at hok
  cases r with
  | error e => simp [exceptIsOk] at hok
  | ok p =>
    obtain ⟨hrc, hp, htr, hfs⟩ := workspace_inversion env f ef ch of b st0 p st hres
    subst hp
    refine ⟨rfl, ?_⟩
    show outPathOf of ch ∈ st.fs
    rw [hfs]
    apply List.mem_filter.mpr
    refine ⟨?_, by simp [hout]⟩
    apply List.mem_append.mpr
    exact Or.inr (hft f (concatList env.tmpdirName) (outPathOf of ch) 2 hrc)

/-! ### Claim C6 -/

/-- C6: once the workspace has been created (tool resolved, clip set
valid, baseline measured), the final filesystem contains neither the
workspace directory nor anything under it, on every exit path; and on
success the run returns the expected output path and exactly that output
file exists there. -/
theorem c6_workspace_cleanup (env : Env) (ef : String) (ch : Nat) (of : String)
    (f : String) (b : Rat)
    (hff : which_or_bundled env (ffmpegBinName env) = some f)
    (hm : missingRoles env.fs0 ef = [])
    (hb : measure_integrated_loudness env f (pjoin ef "jingle_vorne.mp3") = .ok b)
    (hft : FaithfulConcat env)
    (hout : isWorkspacePath env.tmpdirName (outPathOf of ch) = false) :
    ((process_episode env ef ch of).2).fs.all
      (fun q => !(isWorkspacePath env.tmpdirName q)) = true ∧
    (exceptIsOk (process_episode env ef ch of).1 = true →
      (process_episode env ef ch of).1 = .ok (outPathOf of ch) ∧
      outPathOf of ch ∈ ((process_episode env ef ch of).2).fs) := by
  rw [process_run_eq env ef ch of f b hff hm hb]
  exact ⟨workspace_always_cleanup env f ef ch of b _,
    workspace_success_output env f ef ch of b _ hft hout⟩

/-- Witness for C6 on the healthy environment. -/
theorem c6_workspace_cleanup_witness :
    ((process_episode envOk "ep" 1 "out").2).fs.all
      (fun q => !(isWorkspacePath envOk.tmpdirName q)) = true ∧
    (exceptIsOk (process_episode envOk "ep" 1 "out").1 = true →
      (process_episode envOk "ep" 1 "out").1 = .ok (outPathOf "out" 1) ∧
      outPathOf "out" 1 ∈ ((process_episode envOk "ep" 1 "out").2).fs) :=
  c6_workspace_cleanup envOk "ep" 1 "out" "/usr/bin/ffmpeg" (mkRat (-47) 2)
    rfl (by decide) (by decide)
    (fun f ins out q hrc => by
      have hlast : (concatenate_cmd f ins out q).getLastD "" = out := by
        have hsplit : concatenate_cmd f ins out q =
            (([f, "-hide_banner", "-nostdin", "-y"] ++ ins.flatMap (fun x => ["-i", x])) ++
              ["-filter_complex", concat_filter ins.length, "-map", "[out]",
               "-c:a", "libmp3lame", "-q:a", toString q]) ++ [out] := by
          simp [concatenate_cmd]
        rw [hsplit, List.getLastD_concat]
      show out ∈ [(concatenate_cmd f ins out q).getLastD ""]
      rw [hlast]
      exact List.mem_singleton.mpr rfl)
    (by decide)

/-! ### Claim C7 (corrected) -/

/-- Counterexample to C7: when the failing concatenation process has
itself created (then abandoned) its output file, the pipeline raises the
concatenation error but leaves that file in place — the source removes
nothing outside the workspace.  The message does carry the diagnostic
verbatim. -/
theorem c7_counterexample :
    (process_episode envConcPartial "ep" 1 "out").1 =
      .error (.runtimeError "ffmpeg concatenation failed:\nInvalid data found") ∧
    pjoin "out" "Kapitel 1.mp3" ∈ ((process_episode envConcPartial "ep" 1 "out").2).fs := by
  refine ⟨by decide, by decide⟩

/-- C7 amended: a non-zero concatenation exit fails the run with the
concatenation error carrying the captured diagnostic text verbatim; the
pipeline itself never creates or removes the output file, so no file
exists at the target path afterwards provided it did not pre-exist and no
external run created it. -/
theorem c7_amended_concat_failure (env : Env) (ef : String) (ch : Nat) (of : String)
    (f : String) (b : Rat) (d : String)
    (hff : which_or_bundled env (ffmpegBinName env) = some f)
    (hm : missingRoles env.fs0 ef = [])
    (hb : measure_integrated_loudness env f (pjoin ef "jingle_vorne.mp3") = .ok b)
    (hnorm : ∀ np ∈ roleFiles ef,
      (env.run (normalize_cmd f np.2 (pjoin env.tmpdirName (np.1 ++ "_norm.wav")) b
        DEFAULT_TRUE_PEAK DEFAULT_LRA 48000 2)).rc = 0)
    (hcrc : (env.run (concatenate_cmd f (concatList env.tmpdirName)
      (outPathOf of ch) 2)).rc ≠ 0)
    (hcerr : (env.run (concatenate_cmd f (concatList env.tmpdirName)
      (outPathOf of ch) 2)).err = d)
    (hop0 : outPathOf of ch ∉ env.fs0)
    (hoptd : outPathOf of ch ≠ env.tmpdirName)
    (hopc : ∀ c, outPathOf of ch ∉ (env.run c).creates) :
    (process_episode env ef ch of).1 =
      .error (.runtimeError ("ffmpeg concatenation failed:\n" ++ d)) ∧
    outPathOf of ch ∉ ((process_episode env ef ch of).2).fs := by
  rw [process_run_eq env ef ch of f b hff hm hb]
  simp only [pe_stage_workspace]
  rw [normalizeAll_ok_of_rc env f env.tmpdirName b (roleFiles ef) _ hnorm]
  simp only [pe_stage_concat, concat_files_eval]
  have hce : concatenate_audio env f (concatList env.tmpdirName)
      (pjoin of ("Kapitel " ++ toString ch ++ ".mp3")) 2 =
      .error (.runtimeError ("ffmpeg concatenation failed:\n" ++ d)) := by
    unfold concatenate_audio
    rw [if_pos (by simpa [outPathOf] using hcrc)]
    simp only [outPathOf] at hcerr
    rw [hcerr]
  rw [hce]
  refine ⟨rfl, ?_⟩
  apply cleanupTd_not_mem
  intro hmem
  simp only [applyCreates, pushEvent_fs, pushStatus_fs, List.mem_append,
    List.mem_singleton, normCreates, List.mem_flatMap] at hmem
  rcases hmem with (((h0 | hmc) | htd) | ⟨np, hnp, hin⟩) | hcc
  · exact hop0 h0
  · exact hopc _ hmc
  · exact hoptd htd
  · exact hopc _ hin
  · exact hopc _ hcc

/-- Witness for the amended C7: concatenation fails with "Invalid data
found", no run creates any file — the error message carries the diagnostic
and no output file exists. -/
theorem c7_amended_concat_failure_witness :
    (process_episode envConcFail "ep" 1 "out").1 =
      .error (.runtimeError ("ffmpeg concatenation failed:\n" ++ "Invalid data found")) ∧
    outPathOf "out" 1 ∉ ((process_episode envConcFail "ep" 1 "out").2).fs :=
  c7_amended_concat_failure envConcFail "ep" 1 "out" "/usr/bin/ffmpeg" (mkRat (-47) 2)
    "Invalid data found" rfl (by decide) (by decide) (by decide) (by decide) (by decide)
    (by decide) (by decide)
    (fun c => by
      simp only [envConcFail]
      split <;> simp)

/-! ### Claim C9 (corrected) -/

/-- Counterexample to C9: a tool-not-found failure and a missing-files
failure — two different error kinds of the specification — surface as
exceptions of one and the same Python type (`RuntimeError`), with
different messages: the kinds are not distinguishable as types. -/
theorem c9_counterexample :
    (process_episode envNoTool "ep" 1 "out").1 = .error (.runtimeError toolNotFoundMsg) ∧
    (process_episode envMissing "ep" 1 "out").1 =
      .error (.runtimeError "Fehlende Dateien:\n  - outro.mp3\n  - jingle_hinten.mp3") ∧
    PyExc.typeName (.runtimeError toolNotFoundMsg) =
      PyExc.typeName
        (.runtimeError "Fehlende Dateien:\n  - outro.mp3\n  - jingle_hinten.mp3") ∧
    toolNotFoundMsg ≠ "Fehlende Dateien:\n  - outro.mp3\n  - jingle_hinten.mp3" := by
  refine ⟨by decide, by decide, rfl, by decide⟩

/-- C9 amended: all six error kinds of the specification are raised as the
single exception type `RuntimeError` and are distinguishable only by their
message text — shown on one concrete run per kind (tool not found, missing
files, analysis failure, NaN parse failure, normalization failure,
concatenation failure), whose six messages are pairwise distinct while
every exception type is `RuntimeError`. -/
theorem c9_amended_single_exception_type :
    (process_episode envNoTool "ep" 1 "out").1 = .error (.runtimeError toolNotFoundMsg) ∧
    (process_episode envMissing "ep" 1 "out").1 =
      .error (.runtimeError "Fehlende Dateien:\n  - outro.mp3\n  - jingle_hinten.mp3") ∧
    (process_episode envAnaFail "ep" 1 "out").1 = .error (.runtimeError
      "ffmpeg loudness analysis failed for ep/jingle_vorne.mp3:\nanalysis blew up") ∧
    (process_episode envNanParse "ep" 1 "out").1 = .error (.runtimeError
      "Invalid loudness (input_i) for ep/jingle_vorne.mp3.") ∧
    (process_episode envNormFail "ep" 1 "out").1 = .error (.runtimeError
      "ffmpeg normalize failed for ep/intro.mp3:\nnormalize blew up") ∧
    (process_episode envConcFail "ep" 1 "out").1 = .error (.runtimeError
      "ffmpeg concatenation failed:\nInvalid data found") ∧
    ([toolNotFoundMsg, "Fehlende Dateien:\n  - outro.mp3\n  - jingle_hinten.mp3",
      "ffmpeg loudness analysis failed for ep/jingle_vorne.mp3:\nanalysis blew up",
      "Invalid loudness (input_i) for ep/jingle_vorne.mp3.",
      "ffmpeg normalize failed for ep/intro.mp3:\nnormalize blew up",
      "ffmpeg concatenation failed:\nInvalid data found"] : List String).Nodup ∧
    ([toolNotFoundMsg, "Fehlende Dateien:\n  - outro.mp3\n  - jingle_hinten.mp3",
      "ffmpeg loudness analysis failed for ep/jingle_vorne.mp3:\nanalysis blew up",
      "Invalid loudness (input_i) for ep/jingle_vorne.mp3.",
      "ffmpeg normalize failed for ep/intro.mp3:\nnormalize blew up",
      "ffmpeg concatenation failed:\nInvalid data found"].map
        (fun m => PyExc.typeName (.runtimeError m))) =
      List.replicate 6 "RuntimeError" := by
  refine ⟨by decide, by decide, by decide, by decide, by decide, by decide, by decide, rfl⟩

end PodcastApp


